import Mathlib

/-!
Verification of the quotation-tool pipeline (build_quotation_tool.py).

The development shallowly embeds the decision logic of the tool:
the description parser and lookup-key builder, the tonnage reader with
its deduplication and destination-matching policy, the freight-sheet
writer, and the Excel formulas generated for the Quote sheet
(MATCH/INDEX lookups, the weight cascade, the cost arithmetic with its
IFERROR sentinels, and the aggregate status message).

Machine reals of the source (Excel numbers, Python floats) are modelled
as rationals; all the constants involved (19.5, 23, 1.0605, 0.30) are
exact decimals, so no rounding behaviour is lost.
-/

namespace QuotationTool

/-! ### Excel value semantics

Cells computed by the generated formulas hold either a number, a text
value (the sentinels are the empty string and a dash), or an error
value such as DIV/0 or VALUE.  Arithmetic on anything but two numbers
yields an error; IFERROR replaces an error by its alternative. -/

inductive EVal where
  | num (q : ℚ)
  | str (s : String)
  | err
deriving DecidableEq, Repr

def eMul : EVal → EVal → EVal
  | .num a, .num b => .num (a * b)
  | _, _ => .err

def eAdd : EVal → EVal → EVal
  | .num a, .num b => .num (a + b)
  | _, _ => .err

def eDiv : EVal → EVal → EVal
  | .num a, .num b => if b = 0 then .err else .num (a / b)
  | _, _ => .err

def eIfError (v alt : EVal) : EVal :=
  if v = .err then alt else v

/-- Excel MATCH with match type 0 (exact) wrapped in the IFERROR used by
the Quote sheet: 1-based index of the first occurrence, 0 if absent. -/
def matchExact (x : String) : List String → Nat
  | [] => 0
  | y :: ys =>
    if y = x then 1
    else if matchExact x ys = 0 then 0 else matchExact x ys + 1

/-- Excel MATCH with match type 1 (approximate) over an ascending range,
wrapped in IFERROR: the 1-based position of the largest value less than
or equal to the lookup value, or 0 when the lookup value is below the
first entry.  For an ascending list this is the number of leading
entries that are at most the lookup value. -/
def matchApprox (w : ℚ) : List ℚ → Nat
  | [] => 0
  | t :: ts => if t ≤ w then matchApprox w ts + 1 else 0

/-- Excel INDEX over a one-column numeric range (1-based). -/
def index1 (xs : List ℚ) (n : Nat) : EVal :=
  match xs.get? (n - 1) with
  | some q => .num q
  | none => .err

/-- Excel INDEX over a one-column text range (1-based). -/
def index1S (xs : List String) (n : Nat) : EVal :=
  match xs.get? (n - 1) with
  | some s => .str s
  | none => .err

/-- Excel INDEX over a 7-column block (PCS or FOB tiers, 1-based row and
column).  An empty source cell reads as the number 0 in a numeric
context, which is what the generated formulas consume. -/
def index2 (t : List (List (Option ℚ))) (r c : Nat) : EVal :=
  match t.get? (r - 1) with
  | none => .err
  | some row =>
    match row.get? (c - 1) with
    | none => .err
    | some none => .num 0
    | some (some q) => .num q

/-- WEIGHT_TIERS from the source configuration, ascending. -/
def WEIGHT_TIERS : List ℚ := [19.5, 22, 23, 24, 25, 26, 27]

/-! ### Hidden data sheets consumed by the Quote formulas

The named ranges written by build_tool: product keys, product numbers
and the two 7-tier blocks per origin catalog, and the freight columns.
By construction of the writer, the five freight ranges span exactly the
same rows. -/

structure QuoteData where
  inKeys : List String
  slKeys : List String
  inProdNos : List String
  slProdNos : List String
  inPCS : List (List (Option ℚ))
  slPCS : List (List (Option ℚ))
  inFOB : List (List (Option ℚ))
  slFOB : List (List (Option ℚ))
  frKeys : List String
  frTransit : List ℚ
  frAllIn : List ℚ
  frGross : List ℚ
  frConfirmed : List ℚ

/-- The seven dropdown selections B4-B10 and the discount cell B12. -/
structure QuoteInputs where
  b4 : String
  b5 : String
  b6 : String
  b7 : String
  b8 : String
  b9 : String
  b10 : String
  b12 : ℚ

/-- Helper cell K4: the 6-field lookup key. -/
def cellK4 (i : QuoteInputs) : String :=
  i.b4 ++ "|" ++ i.b5 ++ "|" ++ i.b6 ++ "|" ++ i.b7 ++ "|" ++ i.b8 ++ "|" ++ i.b9

/-- Helper cell K6: all seven inputs filled. -/
def cellK6 (i : QuoteInputs) : Bool :=
  i.b4 ≠ "" && i.b5 ≠ "" && i.b6 ≠ "" && i.b7 ≠ "" && i.b8 ≠ "" && i.b9 ≠ "" && i.b10 ≠ ""

/-- Helper cell K7: India product match row. -/
def cellK7 (d : QuoteData) (i : QuoteInputs) : Nat :=
  matchExact (cellK4 i) d.inKeys

/-- Helper cell K8: Sri Lanka product match row. -/
def cellK8 (d : QuoteData) (i : QuoteInputs) : Nat :=
  matchExact (cellK4 i) d.slKeys

/-- Helper cell K9: Cochin freight match row. -/
def cellK9 (d : QuoteData) (i : QuoteInputs) : Nat :=
  matchExact ("Cochin, IN|" ++ i.b10) d.frKeys

/-- Helper cell K10: Tuticorin freight match row. -/
def cellK10 (d : QuoteData) (i : QuoteInputs) : Nat :=
  matchExact ("Tuticorin, IN|" ++ i.b10) d.frKeys

/-- Helper cell K11: Colombo freight match row. -/
def cellK11 (d : QuoteData) (i : QuoteInputs) : Nat :=
  matchExact ("Colombo, LK|" ++ i.b10) d.frKeys

/-- Helper cell K12: raw gross weight, cascading Cochin, then Tuticorin,
then Colombo, else 0.  The INDEX into FR_GrossWT always lands in range
because the freight ranges are written in lockstep, so it is rendered
with a defaulted lookup. -/
def cellK12 (d : QuoteData) (i : QuoteInputs) : ℚ :=
  if 0 < cellK9 d i then d.frGross.getD (cellK9 d i - 1) 0
  else if 0 < cellK10 d i then d.frGross.getD (cellK10 d i - 1) 0
  else if 0 < cellK11 d i then d.frGross.getD (cellK11 d i - 1) 0
  else 0

/-- Helper cell K13: weight-confirmed flag, same cascade as K12. -/
def cellK13 (d : QuoteData) (i : QuoteInputs) : ℚ :=
  if 0 < cellK9 d i then d.frConfirmed.getD (cellK9 d i - 1) 0
  else if 0 < cellK10 d i then d.frConfirmed.getD (cellK10 d i - 1) 0
  else if 0 < cellK11 d i then d.frConfirmed.getD (cellK11 d i - 1) 0
  else 0

/-- Helper cell K5: weight tier index, approximate MATCH of K12 against
the ascending tier list. -/
def cellK5 (d : QuoteData) (i : QuoteInputs) : Nat :=
  matchApprox (cellK12 d i) WEIGHT_TIERS

/-! ### Result-row formulas written by _write_result_row

Each function takes the helper-cell values it references: k6 the
all-inputs flag, mr the product match row (K7 or K8), k5 the tier
index, fr the freight match row (K9, K10 or K11), plus the named
ranges and the discount. -/

def cellB (k6 : Bool) (mr : Nat) (prodNos : List String) : EVal :=
  if !k6 then .str "" else if mr = 0 then .str "-" else index1S prodNos mr

def cellC (k6 : Bool) (mr k5 : Nat) (fob : List (List (Option ℚ))) : EVal :=
  if !k6 then .str "" else if mr = 0 ∨ k5 = 0 then .str "-" else index2 fob mr k5

def cellD (k6 : Bool) (mr k5 : Nat) (fob : List (List (Option ℚ))) (disc : ℚ) : EVal :=
  if !k6 then .str "" else if mr = 0 ∨ k5 = 0 then .str "-"
  else eMul (cellC k6 mr k5 fob) (.num (1 - disc))

def cellE (k6 : Bool) (fr : Nat) (allIn : List ℚ) : EVal :=
  if !k6 then .str "" else if fr = 0 then .str "-"
  else eMul (index1 allIn fr) (.num 1.0605)

def cellF (k6 : Bool) (mr k5 : Nat) (pcs : List (List (Option ℚ))) : EVal :=
  if !k6 then .str "" else if mr = 0 ∨ k5 = 0 then .str "-" else index2 pcs mr k5

def cellG (k6 : Bool) (mr k5 fr : Nat) (pcs : List (List (Option ℚ)))
    (allIn : List ℚ) : EVal :=
  if !k6 then .str ""
  else eIfError (eDiv (cellE k6 fr allIn) (cellF k6 mr k5 pcs)) (.str "-")

def cellH (k6 : Bool) (mr k5 fr : Nat) (fob pcs : List (List (Option ℚ)))
    (allIn : List ℚ) (disc : ℚ) : EVal :=
  if !k6 then .str ""
  else eIfError (eAdd (cellD k6 mr k5 fob disc) (cellG k6 mr k5 fr pcs allIn)) (.str "-")

def cellI (k6 : Bool) (fr : Nat) (transit : List ℚ) : EVal :=
  if !k6 then .str "" else if fr = 0 then .str "-" else index1 transit fr

/-- One result row, cells B through I, as written for an origin. -/
def resultRow (k6 : Bool) (mr k5 fr : Nat) (prodNos : List String)
    (pcs fob : List (List (Option ℚ))) (allIn transit : List ℚ) (disc : ℚ) : List EVal :=
  [cellB k6 mr prodNos, cellC k6 mr k5 fob, cellD k6 mr k5 fob disc,
   cellE k6 fr allIn, cellF k6 mr k5 pcs, cellG k6 mr k5 fr pcs allIn,
   cellH k6 mr k5 fr fob pcs allIn disc, cellI k6 fr transit]

/-- The three origin rows of the results block: Cochin and Tuticorin
consume the India catalog, Colombo the Sri Lanka catalog. -/
def quoteRows (d : QuoteData) (i : QuoteInputs) : List (List EVal) :=
  [resultRow (cellK6 i) (cellK7 d i) (cellK5 d i) (cellK9 d i)
     d.inProdNos d.inPCS d.inFOB d.frAllIn d.frTransit i.b12,
   resultRow (cellK6 i) (cellK7 d i) (cellK5 d i) (cellK10 d i)
     d.inProdNos d.inPCS d.inFOB d.frAllIn d.frTransit i.b12,
   resultRow (cellK6 i) (cellK8 d i) (cellK5 d i) (cellK11 d i)
     d.slProdNos d.slPCS d.slFOB d.frAllIn d.frTransit i.b12]

/-- Aggregate status message of cell A21, a nested IF chain. -/
def statusMsg (k6 : Bool) (k7 k8 k9 k10 k11 : Nat) : String :=
  if !k6 then "Please fill in all input fields above."
  else if k7 = 0 ∧ k8 = 0 then "No results found with the query inputs."
  else if 0 < k7 ∧ 0 < k8 ∧ 0 < k9 ∧ 0 < k10 ∧ 0 < k11 then ""
  else if k7 = 0 ∧ 0 < k8 then "Product not available from India."
  else if 0 < k7 ∧ k8 = 0 then "Product not available from Sri Lanka."
  else if k9 = 0 ∧ k10 = 0 ∧ 0 < k11 then
    "No freight routes available from India to this destination."
  else if 0 < k9 ∧ 0 < k10 ∧ k11 = 0 then
    "No freight route available from Sri Lanka to this destination."
  else if k9 = 0 ∧ k10 = 0 ∧ k11 = 0 then
    "No freight routes available to this destination."
  else ""

def statusOfEnv (d : QuoteData) (i : QuoteInputs) : String :=
  statusMsg (cellK6 i) (cellK7 d i) (cellK8 d i) (cellK9 d i) (cellK10 d i) (cellK11 d i)

/-- Fixed origin priority of the weight cascade, as hard-coded in the
K12 and K13 formulas. -/
def priorityOrigins : List String := ["Cochin, IN", "Tuticorin, IN", "Colombo, LK"]

/-- Modelled from the spec words for the refinement claim about the
cascade: the freight match row of the first origin in the priority
list that has a route to the destination. -/
def specFirstRoute (d : QuoteData) (destination : String) : Option Nat :=
  (priorityOrigins.map (fun o => matchExact (o ++ "|" ++ destination) d.frKeys)).find?
    (fun n => decide (0 < n))

/-! ### Description parser (parse_description)

The six field extractions are independent regex scans over the same
description.  Each scan is embedded as a leftmost-match search over the
character list, with the greedy repetitions of the source patterns;
for all of these patterns greedy matching never needs backtracking
because whatever follows a repeated class is disjoint from it. -/

def isPySpace (c : Char) : Bool :=
  c = ' ' || c = '\t' || c = '\n' || c = '\r' || c = '\x0b' || c = '\x0c'

/-- Word character of the regex metacharacter for boundaries (ASCII
letters, digits, underscore; source descriptions are ASCII). -/
def isWordChar (c : Char) : Bool := c.isAlphanum || c = '_'

/-- Greedy scan of one or more digits; returns the digits and the rest. -/
def takeDigits : List Char → Option (List Char × List Char)
  | [] => none
  | c :: cs =>
    if c.isDigit then
      match takeDigits cs with
      | some (ds, rest) => some (c :: ds, rest)
      | none => some ([c], cs)
    else none

/-- Greedy scan of zero or more whitespace characters. -/
def dropSpaces : List Char → List Char
  | [] => []
  | c :: cs => if isPySpace c then dropSpaces cs else c :: cs

/-- Case-insensitive literal prefix match; returns the remaining input. -/
def matchPrefixCI : List Char → List Char → Option (List Char)
  | [], rest => some rest
  | _, [] => none
  | l :: ls, c :: cs => if c.toLower = l.toLower then matchPrefixCI ls cs else none

/-- Size pattern at one position: digits, optional spaces, x or X,
optional spaces, digits, optional spaces, x or X, optional spaces,
digits; yields the three digit groups. -/
def matchSizeAt (cs : List Char) : Option (String × String × String) :=
  match takeDigits cs with
  | none => none
  | some (a, r1) =>
    match dropSpaces r1 with
    | x1 :: r2 =>
      if x1 = 'x' ∨ x1 = 'X' then
        match takeDigits (dropSpaces r2) with
        | none => none
        | some (b, r3) =>
          match dropSpaces r3 with
          | x2 :: r4 =>
            if x2 = 'x' ∨ x2 = 'X' then
              match takeDigits (dropSpaces r4) with
              | none => none
              | some (c3, _) => some (String.mk a, String.mk b, String.mk c3)
            else none
          | [] => none
      else none
    | [] => none

def searchSize : List Char → Option (String × String × String)
  | [] => none
  | c :: cs =>
    match matchSizeAt (c :: cs) with
    | some r => some r
    | none => searchSize cs

/-- PLF alternative of the chips pattern, already carrying the
normalisation the source applies afterwards (uppercase and exactly one
space before the digits). -/
def matchPLFAt (cs : List Char) : Option String :=
  match matchPrefixCI ['P', 'L', 'F'] cs with
  | some r =>
    match takeDigits (dropSpaces r) with
    | some (ds, _) => some ("PLF " ++ String.mk ds)
    | none => none
  | none => none

def matchPROAt (cs : List Char) : Option String :=
  match matchPrefixCI ['P', 'R', 'O'] cs with
  | some r =>
    match takeDigits (dropSpaces r) with
    | some (ds, _) => some ("PRO " ++ String.mk ds)
    | none => none
  | none => none

/-- Millimetre alternative of the chips pattern, uppercased. -/
def matchMMAt (cs : List Char) : Option String :=
  match takeDigits cs with
  | some (ds, r) =>
    match matchPrefixCI ['M', 'M'] r with
    | some _ => some (String.mk ds ++ "MM")
    | none => none
  | none => none

/-- Chips alternation at one position, alternatives in source order. -/
def matchChipsAt (cs : List Char) : Option String :=
  match matchPLFAt cs with
  | some v => some v
  | none =>
    match matchPROAt cs with
    | some v => some v
    | none => matchMMAt cs

def searchChips : List Char → Option String
  | [] => none
  | c :: cs =>
    match matchChipsAt (c :: cs) with
    | some r => some r
    | none => searchChips cs

def ecWords : List (List Char) := [['N', 'W'], ['W', 'A'], ['E', 'W'], ['T', 'R'], ['F', 'T']]

/-- EC-level alternation at one position: a whole-word, case-sensitive
match of one of the five two-letter codes.  The flag carries whether
the preceding character was a word character (the left boundary). -/
def matchECAt (prevWord : Bool) (cs : List Char) : Option String :=
  if prevWord then none
  else
    match cs with
    | a :: b :: rest =>
      match ecWords.find? (fun w => w = [a, b]) with
      | some w =>
        match rest with
        | [] => some (String.mk w)
        | c :: _ => if isWordChar c then none else some (String.mk w)
      | none => none
    | _ => none

def searchECFrom (prevWord : Bool) : List Char → Option String
  | [] => none
  | c :: cs =>
    match matchECAt prevWord (c :: cs) with
    | some v => some v
    | none => searchECFrom (isWordChar c) cs

def searchEC (cs : List Char) : Option String := searchECFrom false cs

/-- Plastic-duration pattern at one position: P, digits, Y, case
insensitive, uppercased as in the source. -/
def matchPlasticAt : List Char → Option String
  | [] => none
  | c :: cs =>
    if c.toLower = 'p' then
      match takeDigits cs with
      | some (ds, y :: _) =>
        if y.toLower = 'y' then some ("P" ++ String.mk ds ++ "Y") else none
      | _ => none
    else none

def searchPlastic : List Char → Option String
  | [] => none
  | c :: cs =>
    match matchPlasticAt (c :: cs) with
    | some r => some r
    | none => searchPlastic cs

/-- Whole-phrase NO HOLES at one position, case insensitive, with word
boundaries on both sides and optional spaces inside. -/
def matchNoHolesAt (prevWord : Bool) (cs : List Char) : Bool :=
  if prevWord then false
  else
    match matchPrefixCI ['N', 'O'] cs with
    | none => false
    | some r1 =>
      match matchPrefixCI ['H', 'O', 'L', 'E', 'S'] (dropSpaces r1) with
      | none => false
      | some r2 =>
        match r2 with
        | [] => true
        | c :: _ => !(isWordChar c)

def searchNoHolesFrom (prevWord : Bool) : List Char → Bool
  | [] => false
  | c :: cs => matchNoHolesAt prevWord (c :: cs) || searchNoHolesFrom (isWordChar c) cs

def searchNoHoles (cs : List Char) : Bool := searchNoHolesFrom false cs

/-- Bare HOLES substring, case insensitive, no boundaries. -/
def searchHoles : List Char → Bool
  | [] => false
  | c :: cs => (matchPrefixCI ['H', 'O', 'L', 'E', 'S'] (c :: cs)).isSome || searchHoles cs

def matchBSUAt (prevWord : Bool) (cs : List Char) : Bool :=
  if prevWord then false
  else
    match matchPrefixCI ['B', 'S', 'U'] cs with
    | none => false
    | some r =>
      match r with
      | [] => true
      | c :: _ => !(isWordChar c)

def searchBSUFrom (prevWord : Bool) : List Char → Bool
  | [] => false
  | c :: cs => matchBSUAt prevWord (c :: cs) || searchBSUFrom (isWordChar c) cs

def searchBSU (cs : List Char) : Bool := searchBSUFrom false cs

structure ParsedAttributes where
  size : String
  chips_pith : String
  ec_level : String
  plastic : String
  holes : String
  bsu : String
deriving DecidableEq, Repr

/-- parse_description: None for an empty description, otherwise the six
independent extractions with their defaults. -/
def parse_description (desc : String) : Option ParsedAttributes :=
  if desc = "" then none
  else
    let d := desc.data
    some
      { size :=
          match searchSize d with
          | some (a, b, c) => a ++ "X" ++ b ++ "X" ++ c
          | none => ""
        chips_pith := (searchChips d).getD ""
        ec_level := (searchEC d).getD ""
        plastic := (searchPlastic d).getD ""
        holes := if searchNoHoles d then "NO HOLES"
                 else if searchHoles d then "HOLES" else "N/A"
        bsu := if searchBSU d then "BSU" else "N/A" }

/-- make_key: the 6-field lookup key with the pipe delimiter. -/
def make_key (p : ParsedAttributes) : String :=
  p.size ++ "|" ++ p.chips_pith ++ "|" ++ p.ec_level ++ "|" ++
  p.plastic ++ "|" ++ p.holes ++ "|" ++ p.bsu

/-! ### Tonnage reader (read_tonnage)

Pass 1 deduplicates the raw 40HC survey rows by lowercased port name,
keeping the strictly higher gross weight on a collision and logging
every quality finding.  Pass 2 matches each freight destination
through the skip list, the override table, and the city token, falling
back to the 23 MT unconfirmed default. -/

def pyLower (s : String) : String := String.mk (s.data.map Char.toLower)

def pyStrip (s : String) : String :=
  String.mk (((s.data.dropWhile isPySpace).reverse.dropWhile isPySpace).reverse)

def pyRStrip (s : String) : String :=
  String.mk ((s.data.reverse.dropWhile isPySpace).reverse)

/-- Association-list lookup: the value of the first matching key. -/
def alookup {α : Type} (k : String) : List (String × α) → Option α
  | [] => none
  | (k0, v) :: rest => if k0 = k then some v else alookup k rest

/-- Association-list update: replace the value at the key, appending a
new binding when the key is absent. -/
def alupdate {α : Type} (k : String) (v : α) : List (String × α) → List (String × α)
  | [] => [(k, v)]
  | (k0, v0) :: rest => if k0 = k then (k, v) :: rest else (k0, v0) :: alupdate k v rest

def listContainsSub (sub : List Char) : List Char → Bool
  | [] => sub.isEmpty
  | c :: cs => sub.isPrefixOf (c :: cs) || listContainsSub sub cs

/-- One raw row of the Tonnage sheet: the port and country cells, the
optional gross-weight cell, and the container-type cell. -/
structure TonnageRow where
  row_idx : Nat
  port : String
  country : String
  gross : Option ℚ
  ctype : String
deriving DecidableEq, Repr

/-- State threaded through pass 1: the deduplicated entries keyed by
lowercased port name, each carrying the gross weight, the original
port spelling and the row index, plus the quality-issues log. -/
structure Step1State where
  raw : List (String × (ℚ × String × Nat))
  quality_issues : List String
deriving DecidableEq, Repr

/-- Port name after stripping and the one auto-corrected defect (the
Germany/Hamburg port and country swap). -/
def effPort (row : TonnageRow) : String :=
  let p := pyStrip row.port
  if pyLower p = "germany" ∧ pyLower (pyStrip row.country) = "hamburg" then "Hamburg" else p

def known_misspellings : List (String × String) :=
  [("yokohoma", "Yokohama"), ("lisbao", "Lisboa or Lisbon"), ("le harve", "Le Havre")]

def misspellIssues (row_idx : Nat) (port_str : String) : List String :=
  known_misspellings.foldl
    (fun acc wc =>
      if pyLower port_str = wc.1 then
        acc ++ ["Row " ++ toString row_idx ++ ": Possible misspelling, should be " ++ wc.2]
      else acc) []

def hasAnnotMark (s : String) : Bool :=
  listContainsSub ['*', '*'] s.data || s.data.contains '('

/-- Quality issues recorded for one row before the dedup decision:
the port and country swap, trailing whitespace, known misspellings and
annotation markers, in source order. -/
def rowIssues (row : TonnageRow) : List String :=
  let p := pyStrip row.port
  (if pyLower p = "germany" ∧ pyLower (pyStrip row.country) = "hamburg" then
     ["Row " ++ toString row.row_idx ++ ": Port and Country swapped, corrected to Hamburg, Germany"]
   else [])
  ++ (if pyRStrip row.port ≠ row.port then
        ["Row " ++ toString row.row_idx ++ ": Trailing whitespace in port name"]
      else [])
  ++ misspellIssues row.row_idx (effPort row)
  ++ (if hasAnnotMark (effPort row) then
        ["Row " ++ toString row.row_idx ++ ": Annotation in port name"]
      else [])

def dupKeepMsg (port_str : String) (row_idx : Nat) : String :=
  "Duplicate port " ++ port_str ++ " (row " ++ toString row_idx ++ "): keeping higher weight"

def dupSkipMsg (port_str : String) (row_idx : Nat) : String :=
  "Duplicate port " ++ port_str ++ " (row " ++ toString row_idx ++ "): skipping lower weight"

/-- Loop body of pass 1 of read_tonnage for one sheet row. -/
def read_tonnage_row (st : Step1State) (row : TonnageRow) : Step1State :=
  if row.port = "" ∨ pyStrip row.ctype ≠ "40HC" then st
  else
    let port_str := effPort row
    let issues := st.quality_issues ++ rowIssues row
    match row.gross with
    | none =>
      { raw := st.raw,
        quality_issues := issues ++ ["Row " ++ toString row.row_idx ++ ": Missing gross weight"] }
    | some gross_val =>
      let key := pyLower port_str
      match alookup key st.raw with
      | some entry =>
        if entry.1 < gross_val then
          { raw := alupdate key (gross_val, port_str, row.row_idx) st.raw,
            quality_issues := issues ++ [dupKeepMsg port_str row.row_idx] }
        else
          { raw := st.raw,
            quality_issues := issues ++ [dupSkipMsg port_str row.row_idx] }
      | none =>
        { raw := alupdate key (gross_val, port_str, row.row_idx) st.raw,
          quality_issues := issues }

/-- Pass 1 of read_tonnage over all sheet rows. -/
def read_tonnage_step1 (rows : List TonnageRow) : Step1State :=
  rows.foldl read_tonnage_row { raw := [], quality_issues := [] }

/-- Hard-coded override table: freight destination (lowercased) to
tonnage key. -/
def OVERRIDES : List (String × String) :=
  [("london gateway, gb", "london gateway terminal"),
   ("las palmas de gran canaria, es", "las palmas"),
   ("lisbon, pt", "lisbao"),
   ("guayaquil-posorja, ec", "guayaquil"),
   ("cartagena, es", "cartagena")]

/-- Hard-coded skip list: destinations forced to the default. -/
def SKIP_MATCHES : List String := ["cartagena, co"]

/-- City token of a destination: the part before the first comma,
stripped and lowercased. -/
def cityToken (dest : String) : String :=
  pyLower (pyStrip (String.mk (dest.data.takeWhile (fun c => c ≠ ','))))

/-- Pass 2 of read_tonnage for one destination: the resolved
gross weight and confirmed flag.  Mirrors the source: skip list first,
then the override table, then the city token, then the 23 MT
unconfirmed default; the final guard also requires the chosen tonnage
key to be truthy, that is non-empty. -/
def matchDest (raw : List (String × (ℚ × String × Nat))) (dest : String) : ℚ × Bool :=
  let dest_lower := pyLower dest
  if SKIP_MATCHES.contains dest_lower then (23, false)
  else
    let tk :=
      match alookup dest_lower OVERRIDES with
      | some k => some k
      | none =>
        let city := cityToken dest
        if (alookup city raw).isSome then some city else none
    match tk with
    | none => (23, false)
    | some k =>
      if k = "" then (23, false)
      else
        match alookup k raw with
        | some e => (e.1, true)
        | none => (23, false)

/-- Pass 2 of read_tonnage over the destination set: the tonnage map,
one entry per freight destination.  The advisory report lists are not
modelled; they do not feed the returned mapping. -/
def read_tonnage_step2 (raw : List (String × (ℚ × String × Nat)))
    (dests : List String) : List (String × (ℚ × Bool)) :=
  dests.map (fun dest => (dest, matchDest raw dest))

/-! ### Freight-sheet writer (build_tool, step 4) -/

structure Route where
  origin : String
  country : String
  destination : String
  transit_days : ℚ
  all_in_usd : ℚ
deriving DecidableEq, Repr

/-- One written row of the hidden Freight sheet. -/
structure FreightSheetRow where
  key : String
  country : String
  origin : String
  destination : String
  transit_days : ℚ
  all_in_usd : ℚ
  gross_weight : ℚ
  confirmed : ℚ
deriving DecidableEq, Repr

/-- build_tool writes one freight row, taking the weight pair from the
tonnage map with the 23 MT unconfirmed default, and rendering the
confirmed flag as 1 or 0. -/
def writeFreightRow (tonnage : List (String × (ℚ × Bool))) (fr : Route) : FreightSheetRow :=
  let gw := (alookup fr.destination tonnage).getD (23, false)
  { key := fr.origin ++ "|" ++ fr.destination
    country := fr.country
    origin := fr.origin
    destination := fr.destination
    transit_days := fr.transit_days
    all_in_usd := fr.all_in_usd
    gross_weight := gw.1
    confirmed := if gw.2 then 1 else 0 }

/-- All freight rows written by build_tool.  The source sorts the rows
by origin and destination first; the sort only permutes the rows and
does not affect any written value, so it is omitted here. -/
def writeFreightRows (tonnage : List (String × (ℚ × Bool))) (frs : List Route) :
    List FreightSheetRow :=
  frs.map (writeFreightRow tonnage)

/-! ### Helper lemmas -/

theorem matchExact_le_length (x : String) : ∀ l : List String, matchExact x l ≤ l.length
  | [] => by simp [matchExact]
  | y :: ys => by
    have ih := matchExact_le_length x ys
    simp only [matchExact, List.length_cons]
    split_ifs <;> omega

theorem index1_eq_num (xs : List ℚ) (n : Nat) (hn : n ≠ 0) (hl : n ≤ xs.length) :
    ∃ q : ℚ, index1 xs n = .num q := by
  have hlt : n - 1 < xs.length := by omega
  refine ⟨xs.get ⟨n - 1, hlt⟩, ?_⟩
  unfold index1
  rw [List.get?_eq_get hlt]

theorem eIfError_str_ne_err (v : EVal) (s : String) : eIfError v (.str s) ≠ .err := by
  unfold eIfError
  split_ifs with h <;> simp_all

theorem alookup_alupdate_self {α : Type} (k : String) (v : α) :
    ∀ l : List (String × α), alookup k (alupdate k v l) = some v
  | [] => by simp [alookup, alupdate]
  | (k0, v0) :: rest => by
    by_cases h : k0 = k
    · simp [alookup, alupdate, h]
    · simp [alookup, alupdate, h, alookup_alupdate_self k v rest]

theorem alookup_map_mem {β : Type} (f : String → β) (d : String) :
    ∀ dests : List String, d ∈ dests →
      alookup d (dests.map (fun x => (x, f x))) = some (f d)
  | [], h => absurd h (List.not_mem_nil d)
  | d0 :: rest, h => by
    by_cases h0 : d0 = d
    · subst h0; simp [alookup]
    · have hmem : d ∈ rest := by
        rcases List.mem_cons.mp h with h1 | h1
        · exact absurd h1.symm h0
        · exact h1
      simp [alookup, h0, alookup_map_mem f d rest hmem]

/-! ### Claims -/

/-- C1: Tier floor correctness.  For every gross weight w matched
against the fixed ascending tier list, when w is at least the smallest
tier the resolved tier position points at the largest tier value less
than or equal to w; when w is below the smallest tier (19.5) no tier
resolves (position 0) and the tier-dependent outputs, the FOB price
cell and the units-per-container cell, show the unavailable dash. -/
theorem C1_tier_floor (w : ℚ) :
    (w < 19.5 →
      matchApprox w WEIGHT_TIERS = 0 ∧
      ∀ (mr : Nat) (fob pcs : List (List (Option ℚ))),
        cellC true mr (matchApprox w WEIGHT_TIERS) fob = .str "-" ∧
        cellF true mr (matchApprox w WEIGHT_TIERS) pcs = .str "-") ∧
    (19.5 ≤ w →
      ∃ t : ℚ, 0 < matchApprox w WEIGHT_TIERS ∧
        WEIGHT_TIERS.get? (matchApprox w WEIGHT_TIERS - 1) = some t ∧
        t ≤ w ∧ ∀ t' ∈ WEIGHT_TIERS, t' ≤ w → t' ≤ t) := by
  constructor
  · intro h
    have h0 : matchApprox w WEIGHT_TIERS = 0 := by
      simp only [WEIGHT_TIERS, matchApprox]
      rw [if_neg (not_le.mpr h)]
    refine ⟨h0, ?_⟩
    intro mr fob pcs
    rw [h0]
    exact ⟨by simp [cellC], by simp [cellF]⟩
  · intro h1
    rcases lt_or_le w 22 with h2 | h2
    · have hm : matchApprox w WEIGHT_TIERS = 1 := by
        simp only [WEIGHT_TIERS, matchApprox]
        rw [if_pos h1, if_neg (not_le.mpr h2)]
      rw [hm]
      refine ⟨19.5, by norm_num, rfl, h1, ?_⟩
      intro t' ht' hle
      simp only [WEIGHT_TIERS] at ht'
      fin_cases ht' <;> linarith
    · rcases lt_or_le w 23 with h3 | h3
      · have hm : matchApprox w WEIGHT_TIERS = 2 := by
          simp only [WEIGHT_TIERS, matchApprox]
          rw [if_pos (by linarith), if_pos h2, if_neg (not_le.mpr h3)]
        rw [hm]
        refine ⟨22, by norm_num, rfl, h2, ?_⟩
        intro t' ht' hle
        simp only [WEIGHT_TIERS] at ht'
        fin_cases ht' <;> linarith
      · rcases lt_or_le w 24 with h4 | h4
        · have hm : matchApprox w WEIGHT_TIERS = 3 := by
            simp only [WEIGHT_TIERS, matchApprox]
            rw [if_pos (by linarith), if_pos (by linarith), if_pos h3,
              if_neg (not_le.mpr h4)]
          rw [hm]
          refine ⟨23, by norm_num, rfl, h3, ?_⟩
          intro t' ht' hle
          simp only [WEIGHT_TIERS] at ht'
          fin_cases ht' <;> linarith
        · rcases lt_or_le w 25 with h5 | h5
          · have hm : matchApprox w WEIGHT_TIERS = 4 := by
              simp only [WEIGHT_TIERS, matchApprox]
              rw [if_pos (by linarith), if_pos (by linarith), if_pos (by linarith),
                if_pos h4, if_neg (not_le.mpr h5)]
            rw [hm]
            refine ⟨24, by norm_num, rfl, h4, ?_⟩
            intro t' ht' hle
            simp only [WEIGHT_TIERS] at ht'
            fin_cases ht' <;> linarith
          · rcases lt_or_le w 26 with h6 | h6
            · have hm : matchApprox w WEIGHT_TIERS = 5 := by
                simp only [WEIGHT_TIERS, matchApprox]
                rw [if_pos (by linarith), if_pos (by linarith), if_pos (by linarith),
                  if_pos (by linarith), if_pos h5, if_neg (not_le.mpr h6)]
              rw [hm]
              refine ⟨25, by norm_num, rfl, h5, ?_⟩
              intro t' ht' hle
              simp only [WEIGHT_TIERS] at ht'
              fin_cases ht' <;> linarith
            · rcases lt_or_le w 27 with h7 | h7
              · have hm : matchApprox w WEIGHT_TIERS = 6 := by
                  simp only [WEIGHT_TIERS, matchApprox]
                  rw [if_pos (by linarith), if_pos (by linarith), if_pos (by linarith),
                    if_pos (by linarith), if_pos (by linarith), if_pos h6,
                    if_neg (not_le.mpr h7)]
                rw [hm]
                refine ⟨26, by norm_num, rfl, h6, ?_⟩
                intro t' ht' hle
                simp only [WEIGHT_TIERS] at ht'
                fin_cases ht' <;> linarith
              · have hm : matchApprox w WEIGHT_TIERS = 7 := by
                  simp only [WEIGHT_TIERS, matchApprox]
                  rw [if_pos (by linarith), if_pos (by linarith), if_pos (by linarith),
                    if_pos (by linarith), if_pos (by linarith), if_pos (by linarith),
                    if_pos h7]
                rw [hm]
                refine ⟨27, by norm_num, rfl, h7, ?_⟩
                intro t' ht' hle
                simp only [WEIGHT_TIERS] at ht'
                fin_cases ht' <;> linarith

/-- C1 witness: at 18 MT no tier resolves and the tier-dependent cells
show the dash; at 23.4 MT the tier floor resolves. -/
theorem C1_tier_floor_witness :
    (matchApprox 18 WEIGHT_TIERS = 0 ∧
      cellC true 1 (matchApprox 18 WEIGHT_TIERS) [[some 2]] = .str "-" ∧
      cellF true 1 (matchApprox 18 WEIGHT_TIERS) [[some 8000]] = .str "-") ∧
    (∃ t : ℚ, 0 < matchApprox 23.4 WEIGHT_TIERS ∧
      WEIGHT_TIERS.get? (matchApprox 23.4 WEIGHT_TIERS - 1) = some t ∧
      t ≤ 23.4 ∧ ∀ t' ∈ WEIGHT_TIERS, t' ≤ 23.4 → t' ≤ t) := by
  have ha := (C1_tier_floor 18).1 (by norm_num)
  have hb := (C1_tier_floor 23.4).2 (by norm_num)
  exact ⟨⟨ha.1, (ha.2 1 [[some 2]] [[some 8000]]).1, (ha.2 1 [[some 2]] [[some 8000]]).2⟩, hb⟩

/-- C5: Weight cascade priority.  The gross weight and confirmed flag
that feed the tier match are exactly those of the first origin in the
fixed priority list Cochin, Tuticorin, Colombo that has a freight route
to the selected destination, and 0 when no origin has a route. -/
theorem C5_weight_cascade (d : QuoteData) (i : QuoteInputs) :
    cellK5 d i = matchApprox (cellK12 d i) WEIGHT_TIERS ∧
    (cellK12 d i, cellK13 d i) =
      (match specFirstRoute d i.b10 with
       | some n => (d.frGross.getD (n - 1) 0, d.frConfirmed.getD (n - 1) 0)
       | none => (0, 0)) := by
  refine ⟨rfl, ?_⟩
  by_cases h9 : 0 < matchExact ("Cochin, IN|" ++ i.b10) d.frKeys
  · simp [cellK12, cellK13, cellK9, cellK10, cellK11, specFirstRoute, priorityOrigins,
      List.find?, h9]
  · by_cases h10 : 0 < matchExact ("Tuticorin, IN|" ++ i.b10) d.frKeys
    · simp [cellK12, cellK13, cellK9, cellK10, cellK11, specFirstRoute, priorityOrigins,
        List.find?, h9, h10]
    · by_cases h11 : 0 < matchExact ("Colombo, LK|" ++ i.b10) d.frKeys
      · simp [cellK12, cellK13, cellK9, cellK10, cellK11, specFirstRoute, priorityOrigins,
          List.find?, h9, h10, h11]
      · simp [cellK12, cellK13, cellK9, cellK10, cellK11, specFirstRoute, priorityOrigins,
          List.find?, h9, h10, h11]

/-- Concrete quote environment for the status counterexample: the key
is present in both catalogs, Cochin and Colombo have a route to the
destination, Tuticorin does not. -/
def statusCounterData : QuoteData :=
  { inKeys := ["A|B|C|D|E|F"], slKeys := ["A|B|C|D|E|F"]
    inProdNos := ["P1"], slProdNos := ["P2"]
    inPCS := [[some 8000, none, none, none, none, none, none]]
    slPCS := [[some 7000, none, none, none, none, none, none]]
    inFOB := [[some 2, none, none, none, none, none, none]]
    slFOB := [[some 2, none, none, none, none, none, none]]
    frKeys := ["Cochin, IN|Hamburg, DE", "Colombo, LK|Hamburg, DE"]
    frTransit := [46, 30], frAllIn := [2800, 2500]
    frGross := [25, 25], frConfirmed := [1, 1] }

def statusCounterInputs : QuoteInputs :=
  { b4 := "A", b5 := "B", b6 := "C", b7 := "D", b8 := "E", b9 := "F"
    b10 := "Hamburg, DE", b12 := 0.30 }

/-- C7 counterexample: with all inputs filled, the product matched in
both origins, and routes from Cochin and Colombo but not Tuticorin,
the aggregate status is the empty string, although not everything
resolved (the Tuticorin freight lookup failed).  This refutes the part
of the claim stating that no diagnostic is surfaced only when
everything resolves. -/
theorem C7_status_counterexample :
    statusOfEnv statusCounterData statusCounterInputs = "" ∧
    cellK6 statusCounterInputs = true ∧
    0 < cellK7 statusCounterData statusCounterInputs ∧
    0 < cellK8 statusCounterData statusCounterInputs ∧
    0 < cellK9 statusCounterData statusCounterInputs ∧
    cellK10 statusCounterData statusCounterInputs = 0 ∧
    0 < cellK11 statusCounterData statusCounterInputs := by
  decide

/-- C7 (amended): the aggregate diagnostic always takes one of the
seven fixed messages or the empty string; the nested IF chain checks
the cases in a fixed priority order, so exactly one is surfaced; the
empty string is surfaced exactly when all inputs are filled, the
product matches in both origins, and either all three routes resolve
or exactly one of the two Indian origins (Cochin, Tuticorin) has a
route, with the Colombo route unconstrained. -/
theorem C7_status_classification (k6 : Bool) (k7 k8 k9 k10 k11 : Nat) :
    statusMsg k6 k7 k8 k9 k10 k11 ∈
      ["Please fill in all input fields above.",
       "No results found with the query inputs.",
       "Product not available from India.",
       "Product not available from Sri Lanka.",
       "No freight routes available from India to this destination.",
       "No freight route available from Sri Lanka to this destination.",
       "No freight routes available to this destination.",
       ""] ∧
    (statusMsg k6 k7 k8 k9 k10 k11 = "" ↔
      (k6 = true ∧ 0 < k7 ∧ 0 < k8 ∧
        ((0 < k9 ∧ 0 < k10 ∧ 0 < k11) ∨ (0 < k9 ∧ k10 = 0) ∨ (k9 = 0 ∧ 0 < k10)))) := by
  cases k6 with
  | false =>
    constructor
    · simp [statusMsg]
    · simp [statusMsg]
  | true =>
    constructor
    · unfold statusMsg
      split_ifs <;> simp
    · unfold statusMsg
      split_ifs with h1 h2 h3 h4 h5 h6 h7 h8 <;> simp_all <;> omega

/-- C4: Cost formula.  When the product, the route, and the tier all
resolve, and the catalog holds an FOB value f and a unit count at the
matched row and tier (empty cells reading as 0, and unit counts being
nonnegative), the discounted FOB cell equals f times one minus the
discount, the freight-per-container cell equals the all-in rate times
the fixed 1.0605 multiplier, the freight-per-unit cell equals freight
per container divided by the unit count when that count is positive
and shows the dash when it is zero, never a division error, and the
total-cost cell is their sum when both are available, the dash
otherwise, never an error. -/
theorem C4_cost_formula (mr k5 fr : Nat) (fob pcs : List (List (Option ℚ)))
    (allIn : List ℚ) (disc f a : ℚ) (frow prow : List (Option ℚ)) (punits : Option ℚ)
    (hmr : mr ≠ 0) (hk5 : k5 ≠ 0) (hfr : fr ≠ 0)
    (hfob : fob.get? (mr - 1) = some frow) (hfv : frow.get? (k5 - 1) = some (some f))
    (hpcs : pcs.get? (mr - 1) = some prow) (hpv : prow.get? (k5 - 1) = some punits)
    (ha : allIn.get? (fr - 1) = some a)
    (hp : 0 ≤ punits.getD 0) :
    cellD true mr k5 fob disc = .num (f * (1 - disc)) ∧
    cellE true fr allIn = .num (a * 1.0605) ∧
    (0 < punits.getD 0 →
      cellG true mr k5 fr pcs allIn = .num ((a * 1.0605) / punits.getD 0)) ∧
    (punits.getD 0 = 0 → cellG true mr k5 fr pcs allIn = .str "-") ∧
    cellG true mr k5 fr pcs allIn ≠ .err ∧
    (0 < punits.getD 0 →
      cellH true mr k5 fr fob pcs allIn disc =
        .num (f * (1 - disc) + (a * 1.0605) / punits.getD 0)) ∧
    (punits.getD 0 = 0 → cellH true mr k5 fr fob pcs allIn disc = .str "-") ∧
    cellH true mr k5 fr fob pcs allIn disc ≠ .err := by
  simp only [List.get?_eq_getElem?] at hfob hfv hpcs hpv ha
  have hC : cellC true mr k5 fob = .num f := by
    simp [cellC, hmr, hk5, index2, hfob, hfv]
  have hF : cellF true mr k5 pcs = .num (punits.getD 0) := by
    cases punits <;> simp [cellF, hmr, hk5, index2, hpcs, hpv]
  have hE : cellE true fr allIn = .num (a * 1.0605) := by
    simp [cellE, hfr, index1, ha, eMul]
  have hD : cellD true mr k5 fob disc = .num (f * (1 - disc)) := by
    simp [cellD, hmr, hk5, hC, eMul]
  have hGpos : 0 < punits.getD 0 →
      cellG true mr k5 fr pcs allIn = .num ((a * 1.0605) / punits.getD 0) := by
    intro h0
    simp [cellG, hE, hF, eDiv, h0.ne', eIfError]
  have hGzero : punits.getD 0 = 0 → cellG true mr k5 fr pcs allIn = .str "-" := by
    intro h0
    simp [cellG, hE, hF, h0, eDiv, eIfError]
  have hGne : cellG true mr k5 fr pcs allIn ≠ .err := by
    simp only [cellG, Bool.not_true, if_false]
    exact eIfError_str_ne_err _ _
  have hHne : cellH true mr k5 fr fob pcs allIn disc ≠ .err := by
    simp only [cellH, Bool.not_true, if_false]
    exact eIfError_str_ne_err _ _
  refine ⟨hD, hE, hGpos, hGzero, hGne, ?_, ?_, hHne⟩
  · intro h0
    simp [cellH, hD, hGpos h0, eAdd, eIfError]
  · intro h0
    simp [cellH, hD, hGzero h0, eAdd, eIfError]

/-- C4 witness at FOB 2, discount 30 percent, all-in rate 2829 and
8000 units per container. -/
theorem C4_cost_formula_witness :
    cellD true 1 1 [[some 2]] 0.30 = .num (2 * (1 - 0.30)) ∧
    cellE true 1 [2829] = .num (2829 * 1.0605) ∧
    (0 < (8000 : ℚ) →
      cellG true 1 1 1 [[some 8000]] [2829] = .num ((2829 * 1.0605) / 8000)) ∧
    ((8000 : ℚ) = 0 → cellG true 1 1 1 [[some 8000]] [2829] = .str "-") ∧
    cellG true 1 1 1 [[some 8000]] [2829] ≠ .err ∧
    (0 < (8000 : ℚ) →
      cellH true 1 1 1 [[some 2]] [[some 8000]] [2829] 0.30 =
        .num (2 * (1 - 0.30) + (2829 * 1.0605) / 8000)) ∧
    ((8000 : ℚ) = 0 → cellH true 1 1 1 [[some 2]] [[some 8000]] [2829] 0.30 = .str "-") ∧
    cellH true 1 1 1 [[some 2]] [[some 8000]] [2829] 0.30 ≠ .err :=
  C4_cost_formula 1 1 1 [[some 2]] [[some 8000]] [2829] 0.30 2 2829 [some 2] [some 8000]
    (some 8000) (by decide) (by decide) (by decide) rfl rfl rfl rfl rfl (by norm_num)

/-- Every cell of a result row whose product match is 0 is a number or
a text sentinel, never an error, provided the freight match row is in
range of the freight columns. -/
theorem resultRow_mr_zero_ne_err (k5 fr : Nat) (prodNos : List String)
    (pcs fob : List (List (Option ℚ))) (allIn transit : List ℚ) (disc : ℚ)
    (hA : fr ≤ allIn.length) (hT : fr ≤ transit.length) :
    ∀ v ∈ resultRow true 0 k5 fr prodNos pcs fob allIn transit disc, v ≠ .err := by
  intro v hv
  have hB : cellB true 0 prodNos = .str "-" := by simp [cellB]
  have hC : cellC true 0 k5 fob = .str "-" := by simp [cellC]
  have hD : cellD true 0 k5 fob disc = .str "-" := by simp [cellD]
  have hF : cellF true 0 k5 pcs = .str "-" := by simp [cellF]
  have hE : cellE true fr allIn ≠ .err := by
    unfold cellE
    by_cases hfr : fr = 0
    · simp [hfr]
    · obtain ⟨q, hq⟩ := index1_eq_num allIn fr hfr hA
      simp [hfr, hq, eMul]
  have hI : cellI true fr transit ≠ .err := by
    unfold cellI
    by_cases hfr : fr = 0
    · simp [hfr]
    · obtain ⟨q, hq⟩ := index1_eq_num transit fr hfr hT
      simp [hfr, hq]
  have hG : cellG true 0 k5 fr pcs allIn ≠ .err := by
    have hg : cellG true 0 k5 fr pcs allIn =
        eIfError (eDiv (cellE true fr allIn) (cellF true 0 k5 pcs)) (.str "-") := by
      simp [cellG]
    rw [hg]
    exact eIfError_str_ne_err _ _
  have hH : cellH true 0 k5 fr fob pcs allIn disc ≠ .err := by
    have hh : cellH true 0 k5 fr fob pcs allIn disc =
        eIfError (eAdd (cellD true 0 k5 fob disc) (cellG true 0 k5 fr pcs allIn))
          (.str "-") := by
      simp [cellH]
    rw [hh]
    exact eIfError_str_ne_err _ _
  simp only [resultRow, List.mem_cons, List.not_mem_nil, or_false] at hv
  rcases hv with rfl | rfl | rfl | rfl | rfl | rfl | rfl | rfl <;>
    simp_all

/-- C9: No-match degrades, never throws.  With all inputs filled and a
lookup key matching zero rows in both catalogs, the product-code cell
of each origin shows the dash, the aggregate status is the no-results
message, and every cell of the three result rows is a number or a text
sentinel, never an error value. -/
theorem C9_no_match_degrades (d : QuoteData) (i : QuoteInputs)
    (h6 : cellK6 i = true)
    (h7 : cellK7 d i = 0) (h8 : cellK8 d i = 0)
    (hA : d.frAllIn.length = d.frKeys.length)
    (hT : d.frTransit.length = d.frKeys.length) :
    cellB (cellK6 i) (cellK7 d i) d.inProdNos = .str "-" ∧
    cellB (cellK6 i) (cellK8 d i) d.slProdNos = .str "-" ∧
    statusOfEnv d i = "No results found with the query inputs." ∧
    ∀ row ∈ quoteRows d i, ∀ v ∈ row, v ≠ .err := by
  have hk9 : cellK9 d i ≤ d.frKeys.length := matchExact_le_length _ _
  have hk10 : cellK10 d i ≤ d.frKeys.length := matchExact_le_length _ _
  have hk11 : cellK11 d i ≤ d.frKeys.length := matchExact_le_length _ _
  refine ⟨by rw [h6, h7]; simp [cellB], by rw [h6, h8]; simp [cellB], ?_, ?_⟩
  · unfold statusOfEnv
    rw [h6, h7, h8]
    simp [statusMsg]
  · intro row hrow
    simp only [quoteRows, List.mem_cons, List.not_mem_nil, or_false] at hrow
    rcases hrow with rfl | rfl | rfl
    · rw [h6, h7]
      exact resultRow_mr_zero_ne_err _ _ _ _ _ _ _ _ (hA ▸ hk9) (hT ▸ hk9)
    · rw [h6, h7]
      exact resultRow_mr_zero_ne_err _ _ _ _ _ _ _ _ (hA ▸ hk10) (hT ▸ hk10)
    · rw [h6, h8]
      exact resultRow_mr_zero_ne_err _ _ _ _ _ _ _ _ (hA ▸ hk11) (hT ▸ hk11)

/-- Concrete environment for the C9 witness: a catalog that does not
contain the queried key. -/
def noMatchData : QuoteData :=
  { inKeys := ["Z|Z|Z|Z|Z|Z"], slKeys := []
    inProdNos := ["P9"], slProdNos := []
    inPCS := [[some 8000, none, none, none, none, none, none]], slPCS := []
    inFOB := [[some 2, none, none, none, none, none, none]], slFOB := []
    frKeys := ["Cochin, IN|Nowhere, XX"]
    frTransit := [10], frAllIn := [100], frGross := [25], frConfirmed := [1] }

def noMatchInputs : QuoteInputs :=
  { b4 := "A", b5 := "B", b6 := "C", b7 := "D", b8 := "E", b9 := "F"
    b10 := "Nowhere, XX", b12 := 0.30 }

/-- C9 witness: at the concrete no-match environment, the product-code
cells show the dash, the status is the no-results message and no cell
holds an error. -/
theorem C9_no_match_degrades_witness :
    cellB (cellK6 noMatchInputs) (cellK7 noMatchData noMatchInputs) noMatchData.inProdNos =
      .str "-" ∧
    cellB (cellK6 noMatchInputs) (cellK8 noMatchData noMatchInputs) noMatchData.slProdNos =
      .str "-" ∧
    statusOfEnv noMatchData noMatchInputs = "No results found with the query inputs." ∧
    ∀ row ∈ quoteRows noMatchData noMatchInputs, ∀ v ∈ row, v ≠ .err :=
  C9_no_match_degrades noMatchData noMatchInputs (by decide) (by decide) (by decide)
    (by decide) (by decide)

/-- C2: Tonnage default invariant.  A destination that is not on the
skip list, is not resolved through the override table (no override
entry, or an override target absent from the deduplicated entries),
and whose city token matches no deduplicated tonnage entry, is
assigned exactly the default weight 23 with the confirmed flag false. -/
theorem C2_tonnage_default (raw : List (String × (ℚ × String × Nat))) (dest : String)
    (hskip : SKIP_MATCHES.contains (pyLower dest) = false)
    (hov : ((alookup (pyLower dest) OVERRIDES).map
        (fun k => (alookup k raw).isNone)).getD true = true)
    (hcity : alookup (cityToken dest) raw = none) :
    matchDest raw dest = (23, false) := by
  cases hov0 : alookup (pyLower dest) OVERRIDES with
  | some k =>
    have hk : alookup k raw = none := by
      rw [hov0] at hov
      simpa using hov
    by_cases hk0 : k = "" <;> simp [matchDest, hskip, hov0, hk, hk0]
  | none =>
    simp [matchDest, hskip, hov0, hcity]

/-- C2 witness: a destination with no skip entry, no override entry and
no city match defaults to 23 MT unconfirmed. -/
theorem C2_tonnage_default_witness :
    matchDest [("hamburg", (25, "Hamburg", 3))] "Atlantis, XX" = (23, false) :=
  C2_tonnage_default [("hamburg", (25, "Hamburg", 3))] "Atlantis, XX"
    (by decide) (by decide) (by decide)

/-- C6: Tonnage deduplication policy.  Processing a valid 40HC row
whose lowercased port name collides with a stored entry keeps the
entry with the strictly higher gross weight (on a tie the stored entry
stays), and appends exactly one dedup decision to the quality-issues
log in either case, after the per-row quality findings. -/
theorem C6_dedup_policy (st : Step1State) (row : TonnageRow) (g gross_val : ℚ)
    (p0 : String) (r0 : Nat)
    (hport : row.port ≠ "") (hct : pyStrip row.ctype = "40HC")
    (hg : row.gross = some gross_val)
    (hcol : alookup (pyLower (effPort row)) st.raw = some (g, p0, r0)) :
    (alookup (pyLower (effPort row)) (read_tonnage_row st row).raw).map (fun e => e.1) =
      some (max g gross_val) ∧
    (read_tonnage_row st row).quality_issues =
      st.quality_issues ++ rowIssues row ++
        [if g < gross_val then dupKeepMsg (effPort row) row.row_idx
         else dupSkipMsg (effPort row) row.row_idx] := by
  unfold read_tonnage_row
  rw [if_neg (by simp [hport, hct]), hg]
  simp only [hcol]
  by_cases hlt : g < gross_val
  · rw [if_pos hlt, if_pos hlt]
    refine ⟨?_, by simp⟩
    rw [alookup_alupdate_self]
    simp [max_eq_right hlt.le]
  · rw [if_neg hlt, if_neg hlt]
    refine ⟨?_, by simp⟩
    rw [hcol]
    simp [max_eq_left (not_lt.mp hlt)]

/-- C6 witness: colliding Osaka rows with weights 20 then 25 keep 25
and log the decision. -/
theorem C6_dedup_policy_witness :
    (alookup (pyLower (effPort ⟨4, "Osaka", "Japan", some 25, "40HC"⟩))
        (read_tonnage_row ⟨[("osaka", (20, "Osaka", 3))], []⟩
          ⟨4, "Osaka", "Japan", some 25, "40HC"⟩).raw).map (fun e => e.1) =
      some (max 20 25) ∧
    (read_tonnage_row ⟨[("osaka", (20, "Osaka", 3))], []⟩
        ⟨4, "Osaka", "Japan", some 25, "40HC"⟩).quality_issues =
      ([] : List String) ++ rowIssues ⟨4, "Osaka", "Japan", some 25, "40HC"⟩ ++
        [if (20 : ℚ) < 25 then
           dupKeepMsg (effPort ⟨4, "Osaka", "Japan", some 25, "40HC"⟩) 4
         else dupSkipMsg (effPort ⟨4, "Osaka", "Japan", some 25, "40HC"⟩) 4] :=
  C6_dedup_policy ⟨[("osaka", (20, "Osaka", 3))], []⟩ ⟨4, "Osaka", "Japan", some 25, "40HC"⟩
    20 25 "Osaka" 3 (by decide) (by decide) rfl (by decide)

/-- C10: Implicit tie-break in tonnage deduplication.  Processing a
valid 40HC row whose lowercased port name collides with a stored entry
of equal gross weight leaves the stored entries unchanged, so the
first-encountered entry is retained, and logs the discard of the later
row. -/
theorem C10_dedup_tiebreak (st : Step1State) (row : TonnageRow) (g gross_val : ℚ)
    (p0 : String) (r0 : Nat)
    (hport : row.port ≠ "") (hct : pyStrip row.ctype = "40HC")
    (hg : row.gross = some gross_val)
    (hcol : alookup (pyLower (effPort row)) st.raw = some (g, p0, r0))
    (heq : gross_val = g) :
    (read_tonnage_row st row).raw = st.raw ∧
    (read_tonnage_row st row).quality_issues =
      st.quality_issues ++ rowIssues row ++ [dupSkipMsg (effPort row) row.row_idx] := by
  unfold read_tonnage_row
  rw [if_neg (by simp [hport, hct]), hg]
  simp only [hcol]
  rw [if_neg (by rw [heq]; exact lt_irrefl g)]
  exact ⟨rfl, by simp⟩

/-- C10 witness: colliding Kobe rows of equal weight 20 keep the first
entry and log the discard of the second. -/
theorem C10_dedup_tiebreak_witness :
    (read_tonnage_row ⟨[("kobe", (20, "Kobe", 5))], []⟩
        ⟨6, "Kobe", "Japan", some 20, "40HC"⟩).raw = [("kobe", (20, "Kobe", 5))] ∧
    (read_tonnage_row ⟨[("kobe", (20, "Kobe", 5))], []⟩
        ⟨6, "Kobe", "Japan", some 20, "40HC"⟩).quality_issues =
      ([] : List String) ++ rowIssues ⟨6, "Kobe", "Japan", some 20, "40HC"⟩ ++
        [dupSkipMsg (effPort ⟨6, "Kobe", "Japan", some 20, "40HC"⟩) 6] :=
  C10_dedup_tiebreak ⟨[("kobe", (20, "Kobe", 5))], []⟩ ⟨6, "Kobe", "Japan", some 20, "40HC"⟩
    20 20 "Kobe" 5 (by decide) (by decide) rfl (by decide) rfl

/-- C3: Consistency across origins.  Over the freight rows written by
the workbook builder from the tonnage map produced by the tonnage
matcher, any two rows sharing a destination carry the identical gross
weight and confirmed flag regardless of origin, and every row whose
destination is in the matched destination set carries exactly the pair
the tonnage matcher resolved for that destination. -/
theorem C3_weight_consistency (trows : List TonnageRow) (dests : List String)
    (frs : List Route) :
    (∀ r1 ∈ writeFreightRows (read_tonnage_step2 (read_tonnage_step1 trows).raw dests) frs,
      ∀ r2 ∈ writeFreightRows (read_tonnage_step2 (read_tonnage_step1 trows).raw dests) frs,
        r1.destination = r2.destination →
          r1.gross_weight = r2.gross_weight ∧ r1.confirmed = r2.confirmed) ∧
    (∀ r ∈ writeFreightRows (read_tonnage_step2 (read_tonnage_step1 trows).raw dests) frs,
      r.destination ∈ dests →
        r.gross_weight = (matchDest (read_tonnage_step1 trows).raw r.destination).1 ∧
        r.confirmed =
          (if (matchDest (read_tonnage_step1 trows).raw r.destination).2 then (1 : ℚ)
           else 0)) := by
  constructor
  · intro r1 h1 r2 h2 hd
    obtain ⟨fr1, _, rfl⟩ := List.mem_map.mp h1
    obtain ⟨fr2, _, rfl⟩ := List.mem_map.mp h2
    have hd' : fr1.destination = fr2.destination := hd
    simp [writeFreightRow, hd']
  · intro r hr hd
    obtain ⟨fr, _, rfl⟩ := List.mem_map.mp hr
    have hd' : fr.destination ∈ dests := hd
    have hlk := alookup_map_mem (matchDest (read_tonnage_step1 trows).raw)
      fr.destination dests hd'
    simp [writeFreightRow, read_tonnage_step2, hlk]

/-- C3 witness: two routes to Hamburg from different origins receive
the identical written weight pair. -/
theorem C3_weight_consistency_witness :
    (writeFreightRow
        (read_tonnage_step2 (read_tonnage_step1 [⟨3, "Hamburg", "Germany", some 25, "40HC"⟩]).raw
          ["Hamburg, DE"])
        ⟨"Cochin, IN", "India", "Hamburg, DE", 46, 2800⟩).gross_weight =
      (writeFreightRow
        (read_tonnage_step2 (read_tonnage_step1 [⟨3, "Hamburg", "Germany", some 25, "40HC"⟩]).raw
          ["Hamburg, DE"])
        ⟨"Colombo, LK", "Sri Lanka", "Hamburg, DE", 30, 2500⟩).gross_weight ∧
    (writeFreightRow
        (read_tonnage_step2 (read_tonnage_step1 [⟨3, "Hamburg", "Germany", some 25, "40HC"⟩]).raw
          ["Hamburg, DE"])
        ⟨"Cochin, IN", "India", "Hamburg, DE", 46, 2800⟩).confirmed =
      (writeFreightRow
        (read_tonnage_step2 (read_tonnage_step1 [⟨3, "Hamburg", "Germany", some 25, "40HC"⟩]).raw
          ["Hamburg, DE"])
        ⟨"Colombo, LK", "Sri Lanka", "Hamburg, DE", 30, 2500⟩).confirmed :=
  (C3_weight_consistency [⟨3, "Hamburg", "Germany", some 25, "40HC"⟩] ["Hamburg, DE"]
      [⟨"Cochin, IN", "India", "Hamburg, DE", 46, 2800⟩,
       ⟨"Colombo, LK", "Sri Lanka", "Hamburg, DE", 30, 2500⟩]).1
    _ (List.mem_map_of_mem _ (by simp))
    _ (List.mem_map_of_mem _ (by simp))
    rfl

/-- C8: Parser defaults and totality.  parse_description returns none
exactly for the empty description, and a non-empty description in
which none of the six optional marker scans finds a match parses to
the sentinel defaults: N/A for holes and BSU, empty strings for size,
chips and pith, EC level and plastic. -/
theorem C8_parser_defaults :
    (∀ desc : String, parse_description desc = none ↔ desc = "") ∧
    (∀ desc : String, desc ≠ "" →
      searchSize desc.data = none → searchChips desc.data = none →
      searchEC desc.data = none → searchPlastic desc.data = none →
      searchNoHoles desc.data = false → searchHoles desc.data = false →
      searchBSU desc.data = false →
      parse_description desc =
        some { size := "", chips_pith := "", ec_level := "", plastic := ""
               holes := "N/A", bsu := "N/A" }) := by
  constructor
  · intro desc
    unfold parse_description
    by_cases h : desc = "" <;> simp [h]
  · intro desc hne h1 h2 h3 h4 h5 h6 h7
    unfold parse_description
    rw [if_neg hne]
    simp [h1, h2, h3, h4, h5, h6, h7]

/-- C8 witness: a marker-free description parses to the defaults. -/
theorem C8_parser_defaults_witness :
    parse_description "COCO DISC" =
      some { size := "", chips_pith := "", ec_level := "", plastic := ""
             holes := "N/A", bsu := "N/A" } :=
  C8_parser_defaults.2 "COCO DISC" (by decide) (by decide) (by decide) (by decide)
    (by decide) (by decide) (by decide) (by decide)

end QuotationTool
